import Mathlib

/-
Verification of the MACROmini multi-agent code-review orchestrator.

This file shallowly embeds the orchestration layer of the repository
(src/orchestration/aggregator.py, state.py, graph.py, router.py and the
relevant part of src/agents/base_agent.py) in Lean 4 and proves or refutes
the frozen specification claims about it.

Modelling conventions:
 - Python dict-shaped issues become the structure Issue.  Every field that the
   aggregator only ever reads through dict.get with a fixed default is modelled
   as a total field whose default value is that fixed default (observationally
   equivalent).  Fields whose presence is observable (agents, duplicate_count)
   are Options, none meaning "key absent".
 - Python floats are modelled as exact rationals (the type PyNum below, a
   normalized fraction with kernel-computable arithmetic).  All concrete inputs
   used in the theorems below only exercise arithmetic that is exact in binary
   floating point as well, so no boundary behaviour is lost.
 - Fallible code (list indexing that can raise, attribute errors) is modelled
   with Except String.
 - Python object identity (id(issue)) used by the deduplicator is modelled by
   list position, via withIdx.
-/

/-- Pairs each element of a list with its position, starting at n.  Models
Python object identity for list elements: distinct positions are distinct
objects. -/
def withIdx {α : Type} : List α → Nat → List (Nat × α)
  | [], _ => []
  | x :: tl, n => (n, x) :: withIdx tl (n + 1)

/-- Python dict assignment d[k] = v on an association list: replace the first
binding of k if present, else append. -/
def updD {α : Type} (m : List (String × α)) (k : String) (v : α) : List (String × α) :=
  match m with
  | [] => [(k, v)]
  | (k2, v2) :: tl => if k2 == k then (k2, v) :: tl else (k2, v2) :: updD tl k v

/-- Does the second list start with the first one? -/
def subAt : List Char → List Char → Bool
  | [], _ => true
  | _ :: _, [] => false
  | a :: as, b :: bs => a == b && subAt as bs

/-- Python substring containment pat in s over character lists. -/
def hasSub (pat : List Char) : List Char → Bool
  | [] => subAt pat []
  | s@(_ :: tl) => subAt pat s || hasSub pat tl

/-- Python str.lower().  Char.toLower only lowers ASCII letters; every string
the repository compares is ASCII. -/
def lowerStr (s : String) : String := String.mk (s.data.map Char.toLower)

/-- Python str.strip: remove leading and trailing whitespace. -/
def pyStrip (s : String) : String :=
  String.mk (((s.data.dropWhile Char.isWhitespace).reverse.dropWhile Char.isWhitespace).reverse)

/-- Python sep.join(parts). -/
def joinSep (sep : String) : List String → String
  | [] => ""
  | [d] => d
  | d :: tl => d ++ sep ++ joinSep sep tl

/-- Lexicographic comparison of character lists by code point, the order Python
uses to compare strings (for sorted agent-name lists). -/
def charListLe : List Char → List Char → Bool
  | [], _ => true
  | _ :: _, [] => false
  | a :: as, b :: bs =>
    if a.val < b.val then true else if b.val < a.val then false else charListLe as bs

/-
Exact rational numbers with arithmetic that the Lean kernel can evaluate
(the Rat operations normalize through the well-founded Nat.gcd, which does not
reduce definitionally).  A PyNum models the exact value of a Python float
computation; every fraction is kept normalized with a positive denominator, so
structural equality is value equality.
-/

/-- Euclid gcd with explicit fuel; fuel = a + 1 always suffices since
the first argument strictly decreases, so the fuel 0 case is unreachable from
natGcd. -/
def gcdF : Nat → Nat → Nat → Nat
  | 0, _, b => b
  | fuel + 1, a, b => if a = 0 then b else gcdF fuel (b % a) a

/-- Greatest common divisor (structural, kernel-computable). -/
def natGcd (a b : Nat) : Nat := gcdF (a + 1) a b

/-- Exact value of a Python float computation: a normalized fraction with
positive denominator. -/
structure PyNum where
  num : Int
  den : Int
deriving DecidableEq, Repr

/-- Reduce a fraction with positive denominator to lowest terms. -/
def pyNorm (x : PyNum) : PyNum :=
  let g := natGcd x.num.natAbs x.den.toNat
  if g = 0 then x
  else
    let n := x.num.natAbs / g
    let d := x.den.toNat / g
    ⟨if x.num < 0 then -(Int.ofNat n) else Int.ofNat n, Int.ofNat d⟩

/-- The rational n / d in lowest terms (d positive in every use below). -/
def pyQ (n d : Int) : PyNum := pyNorm ⟨n, d⟩

def pyI (n : Int) : PyNum := ⟨n, 1⟩

def pyAdd (a b : PyNum) : PyNum := pyNorm ⟨a.num * b.den + b.num * a.den, a.den * b.den⟩

def pySub (a b : PyNum) : PyNum := pyNorm ⟨a.num * b.den - b.num * a.den, a.den * b.den⟩

def pyMul (a b : PyNum) : PyNum := pyNorm ⟨a.num * b.num, a.den * b.den⟩

/-- Exact division.  Division by zero is unreachable from the embedded code:
every divisor below is a positive length, 10, 100, or a guarded total. -/
def pyDiv (a b : PyNum) : PyNum :=
  pyNorm (if b.num < 0 then ⟨-(a.num * b.den), -(a.den * b.num)⟩ else ⟨a.num * b.den, a.den * b.num⟩)

/-- Value comparison (valid because denominators are positive). -/
def pyLe (a b : PyNum) : Bool := decide (a.num * b.den ≤ b.num * a.den)

def pyLt (a b : PyNum) : Bool := decide (a.num * b.den < b.num * a.den)

/-- Python sum(xs) starting from 0. -/
def pySum (l : List PyNum) : PyNum := l.foldl pyAdd (pyI 0)

/-- Python max(xs) for a nonempty list: keeps the current element unless a
strictly larger one appears, with d returned for an empty list (the default=
argument). -/
def pyMax (l : List PyNum) (d : PyNum) : PyNum :=
  match l with
  | [] => d
  | x :: tl => tl.foldl (fun acc y => if pyLt acc y then y else acc) x

/-- Python min(a, b): a if a <= b else b. -/
def pyMin (a b : PyNum) : PyNum := if pyLe a b then a else b

/-- Python round(x, 2) modelled on the exact value with round-half-to-even.
The floor is num fdiv den, computed on natAbs parts to stay in kernel-friendly
Nat arithmetic. -/
def pyFloor (x : PyNum) : Int :=
  if 0 ≤ x.num then Int.ofNat (x.num.toNat / x.den.toNat)
  else -(Int.ofNat ((x.num.natAbs + x.den.toNat - 1) / x.den.toNat))

def roundHalfEven (x : PyNum) : Int :=
  let f := pyFloor x
  let twice := 2 * (x.num - f * x.den)
  if twice < x.den then f
  else if x.den < twice then f + 1
  else if f % 2 = 0 then f else f + 1

def pyRound2 (x : PyNum) : PyNum := pyQ (roundHalfEven (pyMul x (pyI 100))) 100

/-
Embedding of difflib.SequenceMatcher(None, a, b).ratio(), which
calculate_text_similarity calls on the lowercased strings.  The matcher is
always constructed with isjunk = None, so the junk set is empty; the autojunk
rule (only active for len(b) >= 200) removes popular elements from b2j but does
not put them in the junk set.
-/

/-- Ascending positions at which character c occurs in b (the per-element index
lists that SequenceMatcher builds for its second sequence). -/
def charPositions (b : List Char) (c : Char) : List Nat :=
  ((withIdx b 0).filter (fun p => p.2 == c)).map (fun p => p.1)

/-- The autojunk rule: with len(b) >= 200, an element occurring more than
len(b) div 100 + 1 times is popular and dropped from the index. -/
def bPopular (b : List Char) (c : Char) : Bool :=
  decide (200 ≤ b.length) && decide (b.length / 100 + 1 < b.count c)

/-- The b2j index of SequenceMatcher after junk and popular elements are
removed (the junk set is empty because isjunk is None). -/
def seqB2j (b : List Char) (c : Char) : List Nat :=
  if bPopular b c then [] else charPositions b c

/-- Inner loop of find_longest_match over the candidate positions j of the
current character, threading the previous DP row and the running best match.
When j = 0, Python looks up key -1 and gets the default 0. -/
def flmRow (prevRow : List (Nat × Nat)) (i : Nat) :
    List Nat → Nat × Nat × Nat → List (Nat × Nat) × (Nat × Nat × Nat)
  | [], best => ([], best)
  | j :: js, best =>
    let k := (if j = 0 then 0 else (prevRow.lookup (j - 1)).getD 0) + 1
    let best1 := if best.2.2 < k then (i + 1 - k, j + 1 - k, k) else best
    let (row, best2) := flmRow prevRow i js best1
    ((j, k) :: row, best2)

/-- Outer DP loop of find_longest_match over a[alo:ahi]; rest is that slice and
i the index of its head in a.  Filtering the candidate list by blo <= j < bhi
is equivalent to the continue/break pair in the source because the position
lists are ascending. -/
def flmDP (b2j : Char → List Nat) (blo bhi : Nat) :
    List Char → Nat → List (Nat × Nat) → Nat × Nat × Nat → Nat × Nat × Nat
  | [], _, _, best => best
  | c :: rest, i, row, best =>
    let js := (b2j c).filter (fun j => decide (blo ≤ j) && decide (j < bhi))
    let (newRow, best1) := flmRow row i js best
    flmDP b2j blo bhi rest (i + 1) newRow best1

/-- The two leftward-extension while loops of find_longest_match (wantJunk
false for the first, true for the third).  Each pass decrements besti, so the
loop runs at most besti - alo times; the callers pass fuel = besti, which is
always enough, making the fuel 0 fallthrough unreachable. -/
def flmExtendLo (a b : List Char) (bjunk : Char → Bool) (alo blo : Nat) (wantJunk : Bool) :
    Nat → Nat → Nat → Nat → Nat × Nat × Nat
  | 0, besti, bestj, bestsize => (besti, bestj, bestsize)
  | fuel + 1, besti, bestj, bestsize =>
    if alo < besti ∧ blo < bestj ∧
        bjunk (b.getD (bestj - 1) ' ') = wantJunk ∧
        a.getD (besti - 1) ' ' = b.getD (bestj - 1) ' ' then
      flmExtendLo a b bjunk alo blo wantJunk fuel (besti - 1) (bestj - 1) (bestsize + 1)
    else (besti, bestj, bestsize)

/-- The two rightward-extension while loops of find_longest_match.  Each pass
increments bestsize while besti + bestsize < ahi holds, so the loop runs at
most ahi times; the callers pass fuel = ahi, which is always enough. -/
def flmExtendHi (a b : List Char) (bjunk : Char → Bool) (ahi bhi : Nat) (wantJunk : Bool) :
    Nat → Nat → Nat → Nat → Nat
  | 0, _, _, bestsize => bestsize
  | fuel + 1, besti, bestj, bestsize =>
    if besti + bestsize < ahi ∧ bestj + bestsize < bhi ∧
        bjunk (b.getD (bestj + bestsize) ' ') = wantJunk ∧
        a.getD (besti + bestsize) ' ' = b.getD (bestj + bestsize) ' ' then
      flmExtendHi a b bjunk ahi bhi wantJunk fuel besti bestj (bestsize + 1)
    else bestsize

/-- difflib find_longest_match on a[alo:ahi] and b[blo:bhi]: the DP phase, then
the non-junk extensions, then the junk-adjacent extensions. -/
def find_longest_match (a b : List Char) (b2j : Char → List Nat) (bjunk : Char → Bool)
    (alo ahi blo bhi : Nat) : Nat × Nat × Nat :=
  let best0 := flmDP b2j blo bhi ((a.drop alo).take (ahi - alo)) alo [] (alo, blo, 0)
  let r1 := flmExtendLo a b bjunk alo blo false best0.1 best0.1 best0.2.1 best0.2.2
  let k2 := flmExtendHi a b bjunk ahi bhi false ahi r1.1 r1.2.1 r1.2.2
  let r3 := flmExtendLo a b bjunk alo blo true r1.1 r1.1 r1.2.1 k2
  let k4 := flmExtendHi a b bjunk ahi bhi true ahi r3.1 r3.2.1 r3.2.2
  (r3.1, r3.2.1, k4)

/-- Total size of all matching blocks (what ratio sums).  The recursion of
get_matching_blocks shrinks the combined interval length at every level, so
fuel = len(a) + len(b) + 1 is always enough; the fuel 0 case is unreachable
from seqMatchScore. -/
def matchTotal (a b : List Char) (b2j : Char → List Nat) (bjunk : Char → Bool) :
    Nat → Nat → Nat → Nat → Nat → Nat
  | 0, _, _, _, _ => 0
  | fuel + 1, alo, ahi, blo, bhi =>
    let m := find_longest_match a b b2j bjunk alo ahi blo bhi
    if m.2.2 = 0 then 0
    else
      m.2.2 + matchTotal a b b2j bjunk fuel alo m.1 blo m.2.1 +
        matchTotal a b b2j bjunk fuel (m.1 + m.2.2) ahi (m.2.1 + m.2.2) bhi

/-- SequenceMatcher(None, a, b).ratio() = 2 * M / (len(a) + len(b)), and 1.0
when both sequences are empty.  The junk predicate is constantly false because
the matcher is built with isjunk = None. -/
def seqMatchScore (a b : List Char) : PyNum :=
  let total := a.length + b.length
  if total = 0 then pyI 1
  else
    pyQ (2 * (matchTotal a b (seqB2j b) (fun _ => false) (total + 1) 0 a.length 0 b.length)) total

/-- calculate_text_similarity from aggregator.py: the SequenceMatcher ratio of
the two lowercased strings. -/
def calculate_text_similarity (text1 text2 : String) : PyNum :=
  seqMatchScore (text1.data.map Char.toLower) (text2.data.map Char.toLower)

example : calculate_text_similarity "abc" "abc" = pyI 1 := by decide
example : calculate_text_similarity "" "x" = pyI 0 := by decide
example : calculate_text_similarity "ab" "b" = pyQ 2 3 := by decide
example : calculate_text_similarity "" "" = pyI 1 := by decide

/-
Data model: the dict-shaped issues that flow through aggregator.py.  Fields
that the aggregator reads only through dict.get with a fixed default become
total fields with that default; agents and duplicate_count are set only by the
merge step, so their absence is observable and they are Options.  The type and
code_snippet keys are never read by the orchestration layer and are omitted.
-/
structure Issue where
  severity : String := "info"
  line_number : Option Int := none
  description : String := ""
  suggestion : String := ""
  agent : String := "unknown"
  confidence : PyNum := pyI 1
  agents : Option (List String) := none
  duplicate_count : Option Nat := none
deriving DecidableEq, Repr

/-- AGENT_WEIGHTS from aggregator.py. -/
def AGENT_WEIGHTS : List (String × PyNum) :=
  [("security", pyI 2), ("quality", pyQ 3 2), ("performance", pyQ 13 10),
   ("testing", pyQ 6 5), ("documentation", pyI 1), ("style", pyQ 1 2)]

/-- SEVERITY_WEIGHTS from aggregator.py. -/
def SEVERITY_WEIGHTS : List (String × PyNum) :=
  [("critical", pyI 10), ("high", pyI 5), ("medium", pyI 2),
   ("low", pyI 1), ("info", pyQ 1 2)]

/-- get_severity_priority from aggregator.py: dict lookup on the lowercased
severity with default 0. -/
def get_severity_priority (severity : String) : Nat :=
  (([("critical", 5), ("high", 4), ("medium", 3), ("low", 2), ("info", 1)] :
      List (String × Nat)).lookup (lowerStr severity)).getD 0

/-- The similarity test applied inside deduplicate_issues when it groups
issues: both line numbers present means within LINE_RANGE = 5 lines; both
absent means description similarity above 0.8; a mixed pair is never grouped. -/
def dedupSimilar (a b : Issue) : Bool :=
  match a.line_number, b.line_number with
  | some la, some lb => decide ((la - lb).natAbs ≤ 5)
  | none, none => pyLt (pyQ 8 10) (calculate_text_similarity a.description b.description)
  | _, _ => false

/-- Inner scan of deduplicate_issues: walk the whole indexed issue list and
move every not-yet-processed issue similar to the cluster seed into the
cluster, marking it processed.  Returns the collected issues and the grown
processed set. -/
def innerScan (seed : Issue) : List (Nat × Issue) → List Nat → List (Nat × Issue) × List Nat
  | [], processed => ([], processed)
  | (j, other) :: tl, processed =>
    if processed.contains j then innerScan seed tl processed
    else if dedupSimilar seed other then
      let r := innerScan seed tl (j :: processed)
      ((j, other) :: r.1, r.2)
    else innerScan seed tl processed

/-- Outer loop of deduplicate_issues: each unprocessed issue seeds a new
cluster and collects, by a scan of the full list, the unprocessed issues
similar to the seed (and only to the seed). -/
def outerScan : List (Nat × Issue) → List (Nat × Issue) → List Nat → List (List Issue)
  | [], _, _ => []
  | (i, issue) :: tl, all, processed =>
    if processed.contains i then outerScan tl all processed
    else
      let r := innerScan issue all (i :: processed)
      (issue :: r.1.map (fun p => p.2)) :: outerScan tl all r.2

/-- The clustering phase of deduplicate_issues.  Python tracks processed
issues by object identity id(issue); list position plays that role here. -/
def clusterIssues (all_issues : List Issue) : List (List Issue) :=
  let indexed := withIdx all_issues 0
  outerScan indexed indexed []

/-- Sort key relation of merge_duplicate_issues: descending severity priority.
Python sorted(key=..., reverse=True) is a stable descending sort, which is
exactly insertionSort with this total transitive relation. -/
def sevGe (a b : Issue) : Prop :=
  get_severity_priority b.severity ≤ get_severity_priority a.severity

instance : DecidableRel sevGe := fun a b =>
  inferInstanceAs (Decidable (get_severity_priority b.severity ≤ get_severity_priority a.severity))

instance : IsTotal Issue sevGe := ⟨fun a b => Nat.le_total (get_severity_priority b.severity) (get_severity_priority a.severity)⟩

instance : IsTrans Issue sevGe := ⟨fun _ _ _ h1 h2 => le_trans h2 h1⟩

/-- Python string order, used by sorted(list(agents)). -/
def strLe (s t : String) : Prop := charListLe s.data t.data = true

instance : DecidableRel strLe := fun s t =>
  inferInstanceAs (Decidable (charListLe s.data t.data = true))

/-- The description-collection loop of merge_duplicate_issues.  A stripped
description is kept when it is nonempty and no already-kept description is
more than 0.8-similar to it; the seen set and the descriptions list always
hold the same strings, so one accumulator plays both roles (the uniqueness
test is a pure existence check over the set). -/
def collectDescs : List Issue → List String → List String
  | [], acc => acc
  | i :: tl, acc =>
    let d := pyStrip i.description
    if !(acc.any fun s => pyLt (pyQ 8 10) (calculate_text_similarity d s)) && !(d == "") then
      collectDescs tl (acc ++ [d])
    else collectDescs tl acc

/-- Python max(suggestions, key=len): first suggestion of maximal length. -/
def maxByLen : List String → String
  | [] => ""
  | s :: tl => tl.foldl (fun acc t => if acc.length < t.length then t else acc) s

def ixErrMsg : String := "IndexError: list index out of range"

/-- Merge of a cluster of size other than 1: sort descending by severity, copy
the top issue, then rebuild description, suggestion, confidence, agents and
duplicate_count.  The two error cases are the empty cluster (sorted_issues[0]
on an empty list) and the all-empty-descriptions cluster (descriptions[0] on
an empty list); for a single kept description join and descriptions[0] agree. -/
def mergeCluster (issues : List Issue) : Except String Issue :=
  match List.insertionSort sevGe issues with
  | [] => Except.error ixErrMsg
  | base :: rest =>
    let agentsSorted := List.insertionSort strLe ((issues.map (fun i => i.agent)).dedup)
    match collectDescs (base :: rest) [] with
    | [] => Except.error ixErrMsg
    | d :: ds =>
      let n := issues.length
      let avg := pyDiv (pySum (issues.map (fun i => i.confidence))) (pyI (Int.ofNat n))
      Except.ok { base with
        description := joinSep " | " (d :: ds),
        suggestion := maxByLen ((base :: rest).map (fun i => i.suggestion)),
        confidence := pyMin (pyI 1) (pyMul avg (pyAdd (pyI 1) (pyMul (pyQ 1 10) (pyI (Int.ofNat (n - 1)))))),
        agents := some agentsSorted,
        duplicate_count := some n }

/-- merge_duplicate_issues from aggregator.py: a cluster of size exactly 1 is
returned unchanged; anything else goes through mergeCluster. -/
def merge_duplicate_issues (issues : List Issue) : Except String Issue :=
  match issues with
  | [i] => Except.ok i
  | other => mergeCluster other

/-- The list comprehension merging every cluster in order; the first raised
exception propagates. -/
def mergeAll : List (List Issue) → Except String (List Issue)
  | [] => Except.ok []
  | c :: tl => do
    let m ← merge_duplicate_issues c
    let rest ← mergeAll tl
    Except.ok (m :: rest)

/-- deduplicate_issues from aggregator.py: empty input short-circuits to [],
otherwise cluster and merge. -/
def deduplicate_issues (all_issues : List Issue) : Except String (List Issue) :=
  if all_issues.isEmpty then Except.ok []
  else mergeAll (clusterIssues all_issues)

/-- calculate_weighted_score from aggregator.py: sum over issues of
severity weight (default 0) times the maximal agent weight (default 1) over
the agents of the issue (falling back to the singleton producing agent) times the
confidence, rounded to two decimal places. -/
def calculate_weighted_score (issues : List Issue) : PyNum :=
  pyRound2 (issues.foldl
    (fun score i =>
      let sw := (SEVERITY_WEIGHTS.lookup (lowerStr i.severity)).getD (pyI 0)
      let agentList := i.agents.getD [i.agent]
      let aw := pyMax (agentList.map (fun a => (AGENT_WEIGHTS.lookup a).getD (pyI 1))) (pyI 1)
      pyAdd score (pyMul (pyMul sw aw) i.confidence))
    (pyI 0))

structure SeverityCounts where
  critical : Nat
  high : Nat
  medium : Nat
  low : Nat
  info : Nat
deriving DecidableEq, Repr

/-- determine_verdict from aggregator.py, with REJECT_SCORE_THRESHOLD = 15
and COMMENT_SCORE_THRESHOLD = 5. -/
def determine_verdict (score : PyNum) (severity_counts : SeverityCounts) : String :=
  if 0 < severity_counts.critical then "reject"
  else if pyLt (pyI 15) score then "reject"
  else if 0 < severity_counts.high then "comment"
  else if pyLt (pyI 5) score then "comment"
  else "approve"

example : (clusterIssues
    [{ line_number := some 0, description := "x" }, { line_number := some 5, description := "y" },
     { line_number := some 10, description := "z" }]).map (fun c => c.length) = [2, 1] := by decide

/-
ReviewState from state.py.  The TypedDict is total=False, so the six per-agent
issue slots are Options (none = key absent); create_initial_state makes all of
them present and empty.  Dict-valued telemetry becomes association lists with
Python dict update semantics (updD).  extra_issues models writes of agents
whose name is outside the six known slots (a plain dict accepts any key); the
aggregation never reads it.
-/
structure ReviewState where
  file_path : String := ""
  file_type : String := ""
  code : String := ""
  diff : String := ""
  change_type : String := ""
  agents_to_invoke : List String := []
  security_issues : Option (List Issue) := none
  quality_issues : Option (List Issue) := none
  performance_issues : Option (List Issue) := none
  testing_issues : Option (List Issue) := none
  documentation_issues : Option (List Issue) := none
  style_issues : Option (List Issue) := none
  agent_execution_times : List (String × PyNum) := []
  agent_errors : List (String × Option String) := []
  all_issues : List Issue := []
  deduplicated_issues : List Issue := []
  final_score : PyNum := pyI 0
  verdict : String := ""
  extra_issues : List (String × List Issue) := []
deriving DecidableEq, Repr

/-- create_initial_state from state.py. -/
def create_initial_state (file_path file_type code diff change_type : String) : ReviewState :=
  { file_path := file_path, file_type := file_type, code := code, diff := diff,
    change_type := change_type,
    security_issues := some [], quality_issues := some [], performance_issues := some [],
    testing_issues := some [], documentation_issues := some [], style_issues := some [],
    agent_execution_times := [], agent_errors := [], agents_to_invoke := [] }

/-- A per-agent slot contributes its list when the key is present and nothing
otherwise. -/
def slotList (o : Option (List Issue)) : List Issue := o.getD []

/-- get_all_agent_issues from state.py: extend over the six fixed slots in
declaration order. -/
def get_all_agent_issues (state : ReviewState) : List Issue :=
  slotList state.security_issues ++ slotList state.quality_issues ++
    slotList state.performance_issues ++ slotList state.testing_issues ++
    slotList state.documentation_issues ++ slotList state.style_issues

/-- Python == between an issue dict and a string: cross-type equality is
always False. -/
def dictEqStr (_i : Issue) (_s : String) : Bool := false

/-- The call count_issues_by_severity(deduplicated_issues) that
aggregate_review_results makes.  count_issues_by_severity expects the full
review state and get_all_agent_issues probes it with tests such as
"security_issues" in state; handed a list, each such test is a Python list
membership test comparing the string against the issue dicts in the list
(dictEqStr, constantly false), so no slot is gathered and the function counts
an empty list. -/
def get_all_agent_issues_of_list (issues : List Issue) : List Issue :=
  if issues.any (fun i => dictEqStr i "security_issues") ||
      issues.any (fun i => dictEqStr i "quality_issues") ||
      issues.any (fun i => dictEqStr i "performance_issues") ||
      issues.any (fun i => dictEqStr i "testing_issues") ||
      issues.any (fun i => dictEqStr i "documentation_issues") ||
      issues.any (fun i => dictEqStr i "style_issues") then []
  else []

/-- Counter(issue.severity for issue in xs) read back with .get(name, 0). -/
def countSeverities (xs : List Issue) : SeverityCounts :=
  ⟨xs.countP (fun i => i.severity == "critical"), xs.countP (fun i => i.severity == "high"),
   xs.countP (fun i => i.severity == "medium"), xs.countP (fun i => i.severity == "low"),
   xs.countP (fun i => i.severity == "info")⟩

def count_issues_by_severity_of_list (issues : List Issue) : SeverityCounts :=
  countSeverities (get_all_agent_issues_of_list issues)

structure Summary where
  total_issues : Nat
  original_count : Nat
  duplicates_removed : Int
  severity_counts : SeverityCounts
deriving DecidableEq, Repr

/-- The update dict returned by aggregate_review_results. -/
structure AggOut where
  all_issues : List Issue
  deduplicated_issues : List Issue
  final_score : PyNum
  verdict : String
  summary : Summary
deriving DecidableEq, Repr

/-- aggregate_review_results from aggregator.py. -/
def aggregate_review_results (state : ReviewState) : Except String AggOut := do
  let all := get_all_agent_issues state
  let dd ← deduplicate_issues all
  let sc := count_issues_by_severity_of_list dd
  let ws := calculate_weighted_score dd
  let v := determine_verdict ws sc
  Except.ok ⟨all, dd, ws, v,
    ⟨dd.length, all.length, (all.length : Int) - (dd.length : Int), sc⟩⟩

/-- Merging the update dict returned by the aggregator node into the state, as the
graph driver does. -/
def applyAggregate (s : ReviewState) (o : AggOut) : ReviewState :=
  { s with all_issues := o.all_issues, deduplicated_issues := o.deduplicated_issues,
           final_score := o.final_score, verdict := o.verdict }

/-
BaseAgent.analyze from base_agent.py, parametrized over the outcome of
_call_llm_with_retry (the LLM gateway is external).  On success the issues are
stamped with the agent name, the slot is written and the error entry cleared;
on failure the error entry is set and the slot is written empty.  The wall
time is recorded rounded to two decimals in both cases.
-/
def updateIssueSlot (s : ReviewState) (name : String) (issues : List Issue) : ReviewState :=
  match name with
  | "security" => { s with security_issues := some issues }
  | "quality" => { s with quality_issues := some issues }
  | "performance" => { s with performance_issues := some issues }
  | "testing" => { s with testing_issues := some issues }
  | "documentation" => { s with documentation_issues := some issues }
  | "style" => { s with style_issues := some issues }
  | other => { s with extra_issues := updD s.extra_issues (other ++ "_issues") issues }

def updateMeta (s : ReviewState) (name : String) (t : PyNum) (err : Option String) : ReviewState :=
  { s with agent_execution_times := updD s.agent_execution_times name (pyRound2 t),
           agent_errors := updD s.agent_errors name err }

def analyze (name : String) (llmOutcome : Except String (List Issue)) (t : PyNum)
    (state : ReviewState) : ReviewState :=
  match llmOutcome with
  | Except.ok issues =>
    updateMeta (updateIssueSlot state name (issues.map (fun i => { i with agent := name }))) name t none
  | Except.error e =>
    updateIssueSlot (updateMeta state name t (some e)) name []

/-- The pipeline of a review in which every invoked agent fails: the initial
state, the agent list of the router, each invoked agent running its failing analyze
against the shared state, then the aggregator node.  The scheduler merges the
per-agent slot and telemetry writes into the state; the slots are disjoint, so
sequential application models the parallel merge. -/
def failingPipeline (fp ft cd df ct : String) (agents : List String)
    (err : String → String) (t : String → PyNum) : Except String ReviewState :=
  let s0 := create_initial_state fp ft cd df ct
  let s1 := { s0 with agents_to_invoke := agents }
  let s2 := agents.foldl (fun s a => analyze a (Except.error (err a)) (t a) s) s1
  (aggregate_review_results s2).map (applyAggregate s2)

/-
The result cache of graph.py.  _get_cached_result is functools.lru_cache
applied to a function whose body is return None: a lookup returns the memoized
value when the key was seen before and otherwise computes the wrapped function
(which yields None) and stores that, so the caller receives None either way.
_cache_result evaluates _get_cached_result.__wrapped__.__setitem__; a plain
function object has no __setitem__ attribute, so the call raises
AttributeError before touching anything.  The LRU capacity bound is irrelevant
here because no call ever stores anything other than the memoized None.
-/
def CACHE_ENABLED : Bool := true

/-- Cache key of _generate_cache_key.  The source hashes this content string
with SHA-256; only key identity matters to the control flow, so the preimage
stands in for the digest. -/
def generate_cache_key (file_path code diff agent_name : String) : String :=
  file_path ++ "||" ++ code ++ "||" ++ diff ++ "||" ++ agent_name

/-- The body of the function wrapped by the lru_cache decorator. -/
def underlyingCachedLookup (_cache_key : String) : Option ReviewState := none

abbrev CacheMemo := List (String × Option ReviewState)

def getCachedResult (memo : CacheMemo) (k : String) : Option ReviewState × CacheMemo :=
  match memo.lookup k with
  | some v => (v, memo)
  | none => (underlyingCachedLookup k, (k, underlyingCachedLookup k) :: memo)

def cacheResult (_memo : CacheMemo) (_k : String) (_result : ReviewState) :
    Except String CacheMemo :=
  Except.error "AttributeError: function object has no attribute __setitem__"

/-- What an agent node invocation returns: the cached value (the cache-hit
print branch), the result of agent.analyze, or the error_result dict
(empty issue list plus one agent_errors entry; the Python message has a
timing text around the exception string, which carries no information). -/
inductive AgentNodeOut where
  | cachedHit (s : ReviewState)
  | agentResult (s : ReviewState)
  | errorResult (agentName msg : String)
deriving DecidableEq

/-- The node function produced by create_agent_node, parametrized over the
state returned by agent.analyze (analyze catches its own exceptions, so the
try block can only raise from _cache_result). -/
def agent_node (agentName : String) (memo : CacheMemo) (state : ReviewState)
    (analyzeResult : ReviewState) : AgentNodeOut × CacheMemo :=
  if CACHE_ENABLED then
    let key := generate_cache_key state.file_path state.code state.diff agentName
    let looked := getCachedResult memo key
    match looked.1 with
    | some c => (AgentNodeOut.cachedHit c, looked.2)
    | none =>
      match cacheResult looked.2 key analyzeResult with
      | Except.ok memo2 => (AgentNodeOut.agentResult analyzeResult, memo2)
      | Except.error e => (AgentNodeOut.errorResult agentName e, looked.2)
  else (AgentNodeOut.agentResult analyzeResult, memo)

/-
Router from router.py.
-/
def FILE_TYPE_MAPPING : List (String × String) :=
  [(".py", "python"), (".pyi", "python"),
   (".js", "javascript"), (".jsx", "javascript"), (".ts", "typescript"), (".tsx", "typescript"),
   (".mjs", "javascript"), (".cjs", "javascript"),
   (".html", "html"), (".htm", "html"), (".css", "css"), (".scss", "scss"), (".sass", "sass"),
   (".json", "json"), (".yaml", "yaml"), (".yml", "yaml"), (".toml", "toml"), (".ini", "ini"),
   (".cfg", "config"), (".conf", "config"), (".env", "env"),
   (".md", "markdown"), (".rst", "restructuredtext"), (".txt", "text"),
   (".sql", "sql"),
   (".sh", "shell"), (".bash", "shell"), (".zsh", "shell"),
   (".xml", "xml"), (".go", "go"), (".rs", "rust"), (".java", "java"), (".rb", "ruby"),
   (".php", "php")]

/-- Last index of c in l, -1 when absent (Python str.rfind). -/
def rfindIdx (c : Char) (l : List Char) : Int :=
  (withIdx l 0).foldl (fun acc p => if p.2 == c then Int.ofNat p.1 else acc) (-1)

/-- The extension part of os.path.splitext on a posix path: the text from the
last dot onward, provided that dot comes after the last slash and some
character strictly between the last slash and that dot is not itself a dot
(so dotfiles such as .env have no extension). -/
def splitextExt (path : String) : String :=
  let l := path.data
  let si := rfindIdx '/' l
  let di := rfindIdx '.' l
  if si < di ∧ (withIdx l 0).any (fun p => decide (si < Int.ofNat p.1) &&
      decide (Int.ofNat p.1 < di) && !(p.2 == '.')) then
    String.mk (l.drop di.toNat)
  else ""

/-- detect_file_type from router.py. -/
def detect_file_type (file_path : String) : String :=
  (FILE_TYPE_MAPPING.lookup (lowerStr (splitextExt file_path))).getD "unknown"

def TEST_FILE_PATTERNS : List String :=
  ["test_", "_test.", ".test.", ".spec.", "tests/", "/test/"]

def CONFIG_FILE_PATTERNS : List String :=
  ["config", "settings", ".env", "dockerfile", "docker-compose", "requirements",
   "package.json", "tsconfig", "webpack", "babel", "eslint", "pytest", "setup.",
   "pyproject.toml"]

def DOC_FILE_PATTERNS : List String :=
  ["readme", "changelog", "license", "contributing", "docs/", "/doc/"]

/-- is_test_file from router.py: case-insensitive substring match. -/
def is_test_file (file_path : String) : Bool :=
  TEST_FILE_PATTERNS.any (fun pat => hasSub pat.data (lowerStr file_path).data)

def is_config_file (file_path : String) : Bool :=
  CONFIG_FILE_PATTERNS.any (fun pat => hasSub pat.data (lowerStr file_path).data)

def is_documentation_file (file_path : String) : Bool :=
  if ["markdown", "restructuredtext", "text"].contains (detect_file_type file_path) then
    DOC_FILE_PATTERNS.any (fun pat => hasSub pat.data (lowerStr file_path).data)
  else false

/-- determine_agents_to_invoke from router.py. -/
def determine_agents_to_invoke (file_path file_type : String) : List String :=
  if is_documentation_file file_path then ["documentation", "style"]
  else if is_config_file file_path then ["security", "documentation", "style"]
  else if is_test_file file_path then ["quality", "testing", "documentation", "style"]
  else if ["python", "javascript", "typescript"].contains file_type then
    ["security", "quality", "performance", "testing", "documentation", "style"]
  else if file_type == "sql" then
    ["security", "quality", "performance", "documentation", "style"]
  else if ["go", "rust", "java", "ruby", "php"].contains file_type then
    ["security", "quality", "performance", "testing", "documentation", "style"]
  else if ["html", "css", "scss", "sass"].contains file_type then
    ["quality", "documentation", "style"]
  else if file_type == "shell" then ["security", "quality", "documentation", "style"]
  else if ["json", "yaml", "toml", "xml"].contains file_type then
    ["security", "documentation", "style"]
  else ["security", "quality", "documentation", "style"]

/-- Concatenation of the per-agent issue lists in a given agent order. -/
def routedConcat (f : String → List Issue) : List String → List Issue
  | [] => []
  | a :: tl => f a ++ routedConcat f tl

/-- A post-scheduler state in which exactly the routed agents have produced
their lists and every other slot holds the empty list it was created with. -/
def stateWithSlots (routed : List String) (f : String → List Issue) : ReviewState :=
  { create_initial_state "" "" "" "" "" with
    security_issues := some (if routed.contains "security" then f "security" else []),
    quality_issues := some (if routed.contains "quality" then f "quality" else []),
    performance_issues := some (if routed.contains "performance" then f "performance" else []),
    testing_issues := some (if routed.contains "testing" then f "testing" else []),
    documentation_issues := some (if routed.contains "documentation" then f "documentation" else []),
    style_issues := some (if routed.contains "style" then f "style" else []) }

example : detect_file_type "a/b/foo.PY" = "python" := by decide
example : detect_file_type ".env" = "unknown" := by decide
example : detect_file_type "x.tar.gz" = "unknown" := by decide
example : is_test_file "src/test_foo.py" = true := by decide
example : is_documentation_file "docs/readme.md" = true := by decide
example : determine_agents_to_invoke "test_foo.py" "python" =
    ["quality", "testing", "documentation", "style"] := by decide

/-
Concrete inputs used by the claim theorems below.
-/

/-- A critical issue produced by the style agent: severity weight 10 times
agent weight 0.5 gives the weighted score 5.0. -/
def c1CriticalIssue : Issue :=
  { severity := "critical", line_number := some 10,
    description := "sql injection via f-string", suggestion := "use parameters",
    agent := "style", confidence := pyI 1 }

def c1State : ReviewState :=
  { create_initial_state "app.py" "python" "code" "" "modified" with
    style_issues := some [c1CriticalIssue] }

def c1Out : AggOut :=
  ⟨[c1CriticalIssue], [c1CriticalIssue], pyI 5, "approve", ⟨1, 1, 0, ⟨0, 0, 0, 0, 0⟩⟩⟩

def c2State : ReviewState := create_initial_state "app.py" "python" "x" "" "modified"

def c2Key : String := generate_cache_key "app.py" "x" "" "security"

def attrErrMsg : String := "AttributeError: function object has no attribute __setitem__"

def c3a : Issue := { severity := "high", line_number := some 1, description := "", agent := "security" }

def c3b : Issue := { severity := "high", line_number := some 2, description := "", agent := "quality" }

def c4a : Issue := { severity := "medium", line_number := some 0, description := "slow loop", agent := "performance" }

def c4b : Issue := { severity := "medium", line_number := some 5, description := "magic number", agent := "quality" }

def c4c : Issue := { severity := "medium", line_number := some 10, description := "poor naming", agent := "quality" }

def c5a : Issue := { severity := "low", line_number := some 0, description := "x", agent := "security" }

def c5b : Issue := { severity := "high", line_number := some 5, description := "", agent := "quality" }

def c5c : Issue := { severity := "low", line_number := some 10, description := "y", agent := "style" }

/-- What the first deduplication pass makes of [c5a, c5b, c5c]: the cluster
of c5a and c5b merges into an issue that inherits the line number 5 of its
highest-severity member c5b, while c5c at line 10 stays separate. -/
def c5m1 : Issue :=
  { severity := "high", line_number := some 5, description := "x", suggestion := "",
    agent := "quality", confidence := pyI 1, agents := some ["quality", "security"],
    duplicate_count := some 2 }

def c5ys : List Issue := [c5m1, c5c]

/-- What a second pass makes of c5ys: lines 5 and 10 are now within range. -/
def c5m2 : Issue :=
  { severity := "high", line_number := some 5, description := "x | y", suggestion := "",
    agent := "quality", confidence := pyI 1, agents := some ["quality", "style"],
    duplicate_count := some 2 }

def c6i : Issue := { severity := "low", line_number := some 3, description := "unused variable", agent := "quality" }

def c6x : Issue := { severity := "high", line_number := some 1, description := "aa", agent := "security" }

def c6y : Issue := { severity := "low", line_number := some 2, description := "zz", agent := "quality" }

/-- The merge of the two-element cluster [c6x, c6y]. -/
def c6m : Issue :=
  { severity := "high", line_number := some 1, description := "aa | zz", suggestion := "",
    agent := "security", confidence := pyI 1, agents := some ["quality", "security"],
    duplicate_count := some 2 }

def c7x : Issue := { severity := "high", line_number := some 1, description := "aa", agent := "security" }

def c7y : Issue := { severity := "critical", line_number := some 2, description := "zz", agent := "quality" }

/-- The merge of the cluster [c7x, c7y]: the critical member is the base. -/
def c7m : Issue :=
  { severity := "critical", line_number := some 2, description := "zz | aa", suggestion := "",
    agent := "quality", confidence := pyI 1, agents := some ["quality", "security"],
    duplicate_count := some 2 }

def validSeverity (s : String) : Bool :=
  ["critical", "high", "medium", "low", "info"].contains s

/-- The nine lists the router can return. -/
def routerOutputs : List (List String) :=
  [["documentation", "style"],
   ["security", "documentation", "style"],
   ["quality", "testing", "documentation", "style"],
   ["security", "quality", "performance", "testing", "documentation", "style"],
   ["security", "quality", "performance", "documentation", "style"],
   ["quality", "documentation", "style"],
   ["security", "quality", "documentation", "style"]]

/-
Claim theorems.
-/

/-- Claim C1.  The claim says aggregate_review_results gives verdict reject
whenever the deduplicated issues contain a critical issue, and comment when
there is no critical issue, the score is at most 15 and a high issue exists.
The code does not: aggregate_review_results hands the deduplicated issue list
to count_issues_by_severity, which expects the state dict, so every severity
count is zero and the verdict comes from the score alone.  At c1State (one
critical style issue) the code yields score 5 and verdict approve. -/
theorem c1_critical_issue_gets_approve :
    (aggregate_review_results c1State).toOption = some c1Out ∧
    c1Out.deduplicated_issues.countP (fun i => i.severity == "critical") = 1 ∧
    c1Out.verdict = "approve" := by
  refine ⟨rfl, by decide, rfl⟩

/-- Claim C2.  The claim says a miss inserts the result and a later call with
the same key hits.  In the code _get_cached_result always yields None (it
memoizes a constant-None function) and _cache_result raises AttributeError,
which the node catches, returning the error_result dict instead of the
result of the agent; the second invocation with the same key misses again.  Both
calls below return errorResult and the memo never gains a real entry. -/
theorem c2_cache_never_stores_never_hits :
    agent_node "security" [] c2State c2State =
      (AgentNodeOut.errorResult "security" attrErrMsg, [(c2Key, none)]) ∧
    agent_node "security" [(c2Key, none)] c2State c2State =
      (AgentNodeOut.errorResult "security" attrErrMsg, [(c2Key, none)]) := by
  refine ⟨rfl, rfl⟩

/-- Claim C3.  The claim says deduplicate_issues never fails.  It does: when
a cluster of two issues has only empty descriptions, merge_duplicate_issues
evaluates descriptions[0] on the empty list and raises IndexError. -/
theorem c3_dedup_raises_on_empty_descriptions :
    deduplicate_issues [c3a, c3b] = Except.error ixErrMsg ∧
    dedupSimilar c3a c3b = true := by
  refine ⟨rfl, by decide⟩

/-- Claim C4, counterexample.  With c4a at line 0, c4b at line 5 and c4c at
line 10 we have similar(a,b), similar(b,c) and not similar(a,c), yet no
cluster of deduplicate_issues contains all three: the walk compares other
issues with the cluster seed only, so c ends up in its own cluster. -/
theorem c4_counterexample_not_transitive :
    dedupSimilar c4a c4b = true ∧ dedupSimilar c4b c4c = true ∧
    dedupSimilar c4a c4c = false ∧
    ¬ ∃ cl ∈ clusterIssues [c4a, c4b, c4c], c4a ∈ cl ∧ c4b ∈ cl ∧ c4c ∈ cl := by
  decide

/-- Claim C4, amended.  The cluster walk is greedy but not transitive: it
compares candidates with the cluster seed only.  With similar(a,b),
similar(b,c) and not similar(a,c), the input [a, b, c] produces the clusters
[a, b] and [c]; the claimed single cluster of all three never forms. -/
theorem c4_amended_cluster_from_seed (a b c : Issue)
    (hab : dedupSimilar a b = true) (hbc : dedupSimilar b c = true)
    (hac : dedupSimilar a c = false) :
    clusterIssues [a, b, c] = [[a, b], [c]] := by
  simp [clusterIssues, withIdx, outerScan, innerScan, hab, hac]

theorem c4_amended_witness :
    dedupSimilar c4a c4b = true ∧ dedupSimilar c4b c4c = true ∧
    dedupSimilar c4a c4c = false ∧
    clusterIssues [c4a, c4b, c4c] = [[c4a, c4b], [c4c]] :=
  ⟨by decide, by decide, by decide,
    c4_amended_cluster_from_seed c4a c4b c4c (by decide) (by decide) (by decide)⟩

/-- When every unprocessed entry of the scanned list is dissimilar to the
seed, the inner scan collects nothing and leaves the processed set unchanged. -/
theorem innerScan_nil (s : Issue) (rest : List (Nat × Issue)) :
    ∀ P : List Nat,
    (∀ p ∈ rest, p.1 ∈ P ∨ dedupSimilar s p.2 = false) →
    innerScan s rest P = ([], P) := by
  induction rest with
  | nil => intro P _; rfl
  | cons hd tl ih =>
    intro P h
    obtain ⟨j, w⟩ := hd
    have htl : ∀ p ∈ tl, p.1 ∈ P ∨ dedupSimilar s p.2 = false :=
      fun p hp => h p (by simp [hp])
    by_cases hmem : j ∈ P
    · simp [innerScan, hmem, ih P htl]
    · have hj : dedupSimilar s w = false := by
        rcases h (j, w) (by simp) with hj | hj
        · exact absurd hj hmem
        · exact hj
      simp [innerScan, hmem, hj, ih P htl]

/-- When the remaining seeds are unprocessed, have pairwise-distinct indices,
and every distinct-index pair of entries is dissimilar (or already processed),
the outer walk produces only singleton clusters. -/
theorem outerScan_singletons (all : List (Nat × Issue)) (rest : List (Nat × Issue)) :
    ∀ P : List Nat,
    (∀ p ∈ rest, ∀ q ∈ all, p.1 ≠ q.1 → q.1 ∈ P ∨ dedupSimilar p.2 q.2 = false) →
    (∀ p ∈ rest, p.1 ∉ P) →
    (rest.map Prod.fst).Nodup →
    outerScan rest all P = rest.map (fun p => [p.2]) := by
  induction rest with
  | nil => intro P _ _ _; rfl
  | cons hd tl ih =>
    intro P h1 h2 hnd
    obtain ⟨i, u⟩ := hd
    have hci : i ∉ P := h2 (i, u) (by simp)
    have hscan : innerScan u all (i :: P) = ([], i :: P) := by
      apply innerScan_nil
      intro q hq
      by_cases hqi : q.1 = i
      · left; simp [hqi]
      · rcases h1 (i, u) (by simp) q hq (fun h => hqi h.symm) with hc | hs
        · left; simp [hc]
        · right; exact hs
    have hnd1 : i ∉ tl.map Prod.fst := by
      have := hnd; simp only [List.map_cons, List.nodup_cons] at this; exact this.1
    have step : outerScan ((i, u) :: tl) all P = [u] :: outerScan tl all (i :: P) := by
      simp [outerScan, hci, hscan]
    have h1a : ∀ p ∈ tl, ∀ q ∈ all, p.1 ≠ q.1 → q.1 ∈ (i :: P) ∨ dedupSimilar p.2 q.2 = false := by
      intro p hp q hq hne
      rcases h1 p (by simp [hp]) q hq hne with hc | hs
      · left; simp [hc]
      · right; exact hs
    have h2a : ∀ p ∈ tl, p.1 ∉ (i :: P) := by
      intro p hp hmem
      have hpi : p.1 ≠ i := by
        intro he; exact hnd1 (he ▸ List.mem_map_of_mem Prod.fst hp)
      rcases List.mem_cons.mp hmem with he | hm
      · exact hpi he
      · exact h2 p (by simp [hp]) hm
    have hnda : (tl.map Prod.fst).Nodup := by
      have := hnd; simp only [List.map_cons, List.nodup_cons] at this; exact this.2
    rw [step, ih (i :: P) h1a h2a hnda]
    simp

theorem withIdx_map_fst {α : Type} (l : List α) :
    ∀ n, (withIdx l n).map Prod.fst = List.range' n l.length := by
  induction l with
  | nil => intro n; rfl
  | cons x tl ih => intro n; simp [withIdx, List.range', ih]

theorem withIdx_map_snd_single {α : Type} (l : List α) :
    ∀ n, (withIdx l n).map (fun p => [p.2]) = l.map (fun u => [u]) := by
  induction l with
  | nil => intro n; rfl
  | cons x tl ih => intro n; simp [withIdx, ih]

theorem withIdx_mem_snd {α : Type} (l : List α) :
    ∀ n (p : Nat × α), p ∈ withIdx l n → p.2 ∈ l := by
  induction l with
  | nil => intro n p hp; cases hp
  | cons x tl ih =>
    intro n p hp
    rcases hp with _ | hp
    · simp
    · exact List.mem_cons_of_mem _ (ih (n + 1) p (by assumption))

theorem pairwise_withIdx {R : Issue → Issue → Prop} (l : List Issue) :
    ∀ n, l.Pairwise R → (withIdx l n).Pairwise (fun p q => R p.2 q.2) := by
  induction l with
  | nil => intro n _; exact List.Pairwise.nil
  | cons x tl ih =>
    intro n h
    rcases List.pairwise_cons.mp h with ⟨hx, htl⟩
    exact List.Pairwise.cons (fun q hq => hx q.2 (withIdx_mem_snd tl (n + 1) q hq)) (ih (n + 1) htl)

/-- On a pairwise-dissimilar issue list every cluster is a singleton. -/
theorem clusterIssues_dissimilar (ys : List Issue)
    (hpair : ys.Pairwise (fun u v => dedupSimilar u v = false ∧ dedupSimilar v u = false)) :
    clusterIssues ys = ys.map (fun u => [u]) := by
  have hsym : ∀ p ∈ withIdx ys 0, ∀ q ∈ withIdx ys 0, p ≠ q →
      dedupSimilar p.2 q.2 = false ∧ dedupSimilar q.2 p.2 = false := by
    intro p hp q hq hne
    exact (pairwise_withIdx ys 0 hpair).forall (fun x y h => ⟨h.2, h.1⟩) hp hq hne
  unfold clusterIssues
  rw [outerScan_singletons (withIdx ys 0) (withIdx ys 0), withIdx_map_snd_single]
  · intro p hp q hq hne
    right
    exact (hsym p hp q hq (fun h => hne (by rw [h]))).1
  · intro p _
    exact List.not_mem_nil _
  · rw [withIdx_map_fst]; exact List.nodup_range' 0 ys.length

theorem mergeAll_singletons (l : List Issue) :
    mergeAll (l.map (fun u => [u])) = Except.ok l := by
  induction l with
  | nil => rfl
  | cons x tl ih =>
    show mergeAll ([x] :: tl.map (fun u => [u])) = Except.ok (x :: tl)
    rw [mergeAll, merge_duplicate_issues, ih]
    rfl

/-- Claim C5, amended.  Deduplication is idempotent on outputs whose issues
are pairwise dissimilar; in general it is not, because merging can relocate
an issue onto the line of its highest-severity member and bring previously
distant issues within range (see the counterexample). -/
theorem c5_amended_dedup_identity_on_dissimilar (xs ys : List Issue)
    (hdd : deduplicate_issues xs = Except.ok ys)
    (hpair : ys.Pairwise (fun u v => dedupSimilar u v = false ∧ dedupSimilar v u = false)) :
    deduplicate_issues ys = Except.ok ys := by
  unfold deduplicate_issues
  cases hys : ys.isEmpty with
  | true =>
    have : ys = [] := List.isEmpty_iff.mp hys
    simp [this]
  | false => simp [clusterIssues_dissimilar ys hpair, mergeAll_singletons]

theorem c5_amended_witness :
    deduplicate_issues [c5a, c5c] = Except.ok [c5a, c5c] ∧
    List.Pairwise (fun u v => dedupSimilar u v = false ∧ dedupSimilar v u = false) [c5a, c5c] ∧
    deduplicate_issues [c5a, c5c] = Except.ok [c5a, c5c] :=
  ⟨rfl, by decide,
    c5_amended_dedup_identity_on_dissimilar [c5a, c5c] [c5a, c5c] rfl (by decide)⟩

/-- Claim C5, counterexample.  Deduplication is not idempotent: merging the
cluster of c5a and c5b moves the fused issue to line 5 (the line of its
highest-severity member), within range of c5c at line 10, so a second pass
merges further and returns a shorter list. -/
theorem c5_counterexample_not_idempotent :
    deduplicate_issues [c5a, c5b, c5c] = Except.ok c5ys ∧
    deduplicate_issues c5ys = Except.ok [c5m2] ∧
    [c5m2] ≠ c5ys := by
  refine ⟨rfl, rfl, by decide⟩

/-- A successful mergeCluster determines the shape of the merged issue. -/
theorem mergeCluster_ok_shape (issues : List Issue) (m : Issue)
    (hm : mergeCluster issues = Except.ok m) :
    ∃ base rest d ds,
      List.insertionSort sevGe issues = base :: rest ∧
      collectDescs (base :: rest) [] = d :: ds ∧
      m = { base with
        description := joinSep " | " (d :: ds),
        suggestion := maxByLen ((base :: rest).map (fun i => i.suggestion)),
        confidence := pyMin (pyI 1)
          (pyMul (pyDiv (pySum (issues.map (fun i => i.confidence))) (pyI (Int.ofNat issues.length)))
            (pyAdd (pyI 1) (pyMul (pyQ 1 10) (pyI (Int.ofNat (issues.length - 1)))))),
        agents := some (List.insertionSort strLe ((issues.map (fun i => i.agent)).dedup)),
        duplicate_count := some issues.length } := by
  cases hsort : List.insertionSort sevGe issues with
  | nil => rw [mergeCluster, hsort] at hm; simp at hm
  | cons base rest =>
    rw [mergeCluster, hsort] at hm
    dsimp only at hm
    cases hdesc : collectDescs (base :: rest) [] with
    | nil => rw [hdesc] at hm; simp at hm
    | cons d ds =>
      rw [hdesc] at hm
      dsimp only at hm
      refine ⟨base, rest, d, ds, rfl, hdesc, ?_⟩
      injection hm with h
      exact h.symm

/-- Claim C6, amended.  For every cluster of size at least 2 that
merge_duplicate_issues merges successfully, the fused issue records
duplicate_count equal to the cluster size and its agents field holds exactly
the set of agent names of the cluster members (as a sorted list); a cluster of
size 1 is returned unchanged, so those keys stay whatever the issue already
carried (absent on fresh issues, see the counterexample). -/
theorem c6_amended_fused_issue_counts (cluster : List Issue) (m : Issue)
    (hlen : 2 ≤ cluster.length)
    (hm : merge_duplicate_issues cluster = Except.ok m) :
    m.duplicate_count = some cluster.length ∧
    ∀ s, s ∈ m.agents.getD [] ↔ ∃ i ∈ cluster, i.agent = s := by
  obtain ⟨a, b, tl, rfl⟩ : ∃ a b tl, cluster = a :: b :: tl := by
    match cluster, hlen with
    | a :: b :: tl, _ => exact ⟨a, b, tl, rfl⟩
  have hm2 : mergeCluster (a :: b :: tl) = Except.ok m := hm
  obtain ⟨base, rest, d, ds, hsort, hdesc, hmeq⟩ := mergeCluster_ok_shape _ _ hm2
  subst hmeq
  refine ⟨rfl, ?_⟩
  intro s
  simp only [Option.getD_some]
  rw [List.mem_insertionSort, List.mem_dedup, List.mem_map]

theorem c6_amended_witness :
    (2 ≤ ([c6x, c6y] : List Issue).length ∧
      merge_duplicate_issues [c6x, c6y] = Except.ok c6m) ∧
    c6m.duplicate_count = some ([c6x, c6y] : List Issue).length ∧
    ∀ s, s ∈ c6m.agents.getD [] ↔ ∃ i ∈ [c6x, c6y], i.agent = s :=
  ⟨⟨by decide, rfl⟩, c6_amended_fused_issue_counts [c6x, c6y] c6m (by decide) rfl⟩

/-- Valid severity names with the same priority are the same name. -/
theorem severity_priority_inj (s t : String)
    (hs : validSeverity s = true) (ht : validSeverity t = true)
    (h : get_severity_priority s = get_severity_priority t) : s = t := by
  have hs2 : s = "critical" ∨ s = "high" ∨ s = "medium" ∨ s = "low" ∨ s = "info" := by
    simpa [validSeverity, List.contains] using hs
  have ht2 : t = "critical" ∨ t = "high" ∨ t = "medium" ∨ t = "low" ∨ t = "info" := by
    simpa [validSeverity, List.contains] using ht
  rcases hs2 with rfl | rfl | rfl | rfl | rfl <;>
    rcases ht2 with rfl | rfl | rfl | rfl | rfl <;>
      first
        | rfl
        | (exfalso; revert h; decide)

/-- Claim C7.  For every nonempty cluster with valid severity names that
merge_duplicate_issues merges successfully, the severity of the merged issue is
one of the severities in the cluster, bounds the priority of every member from
above, and is
the unique such maximal severity name under critical > high > medium > low >
info. -/
theorem c7_merged_severity_is_max (cluster : List Issue) (m : Issue)
    (hne : cluster ≠ [])
    (hval : ∀ i ∈ cluster, validSeverity i.severity = true)
    (hm : merge_duplicate_issues cluster = Except.ok m) :
    m.severity ∈ cluster.map Issue.severity ∧
    (∀ i ∈ cluster, get_severity_priority i.severity ≤ get_severity_priority m.severity) ∧
    (∀ s, s ∈ cluster.map Issue.severity →
      (∀ i ∈ cluster, get_severity_priority i.severity ≤ get_severity_priority s) →
      s = m.severity) := by
  cases cluster with
  | nil => exact absurd rfl hne
  | cons a tl =>
    cases tl with
    | nil =>
      have hma : a = m := by
        have h1 : merge_duplicate_issues [a] = Except.ok a := rfl
        rw [h1] at hm
        injection hm
      subst hma
      refine ⟨by simp, ?_, ?_⟩
      · intro i hi
        rcases List.mem_singleton.mp hi with rfl
        exact le_refl _
      · intro s hs _
        simpa using hs
    | cons b tl2 =>
      have hm2 : mergeCluster (a :: b :: tl2) = Except.ok m := hm
      obtain ⟨base, rest, d, ds, hsort, hdesc, hmeq⟩ := mergeCluster_ok_shape _ _ hm2
      have hperm : List.Perm (base :: rest) (a :: b :: tl2) := hsort ▸ List.perm_insertionSort sevGe _
      have hsorted : List.Sorted sevGe (base :: rest) :=
        hsort ▸ List.sorted_insertionSort sevGe (a :: b :: tl2)
      have hbase_mem : base ∈ a :: b :: tl2 := hperm.mem_iff.mp (List.mem_cons_self _ _)
      have hsev : m.severity = base.severity := by rw [hmeq]
      have hbound : ∀ i ∈ a :: b :: tl2,
          get_severity_priority i.severity ≤ get_severity_priority base.severity := by
        intro i hi
        have : i ∈ base :: rest := hperm.mem_iff.mpr hi
        rcases List.mem_cons.mp this with rfl | hr
        · exact le_refl _
        · exact (List.sorted_cons.mp hsorted).1 i hr
      refine ⟨?_, ?_, ?_⟩
      · rw [hsev]; exact List.mem_map_of_mem Issue.severity hbase_mem
      · intro i hi; rw [hsev]; exact hbound i hi
      · intro s hs hmax
        obtain ⟨j, hj, hjs⟩ := List.mem_map.mp hs
        have h1 : get_severity_priority s ≤ get_severity_priority base.severity := by
          rw [← hjs]; exact hbound j hj
        have h2 : get_severity_priority base.severity ≤ get_severity_priority s :=
          hmax base hbase_mem
        rw [hsev]
        exact severity_priority_inj s base.severity
          (hjs ▸ hval j hj) (hval base hbase_mem) (le_antisymm h1 h2)

theorem c7_witness :
    (([c7x, c7y] : List Issue) ≠ [] ∧
      (∀ i ∈ ([c7x, c7y] : List Issue), validSeverity i.severity = true) ∧
      merge_duplicate_issues [c7x, c7y] = Except.ok c7m) ∧
    (c7m.severity ∈ ([c7x, c7y] : List Issue).map Issue.severity ∧
      (∀ i ∈ ([c7x, c7y] : List Issue),
        get_severity_priority i.severity ≤ get_severity_priority c7m.severity) ∧
      (∀ s, s ∈ ([c7x, c7y] : List Issue).map Issue.severity →
        (∀ i ∈ ([c7x, c7y] : List Issue),
          get_severity_priority i.severity ≤ get_severity_priority s) →
        s = c7m.severity)) :=
  ⟨⟨by decide, by decide, rfl⟩,
    c7_merged_severity_is_max [c7x, c7y] c7m (by decide) (by decide) rfl⟩

theorem lookup_updD_self {α : Type} (m : List (String × α)) (k : String) (v : α) :
    (updD m k v).lookup k = some v := by
  induction m with
  | nil => simp [updD, List.lookup]
  | cons hd tl ih =>
    obtain ⟨k2, v2⟩ := hd
    by_cases h : k2 = k
    · simp [updD, List.lookup, h]
    · have hb : (k2 == k) = false := by simp [h]
      have hb2 : (k == k2) = false := by simp [Ne.symm h]
      simp [updD, List.lookup, hb, hb2, ih]

theorem lookup_updD_ne {α : Type} (m : List (String × α)) (k k2 : String) (v : α)
    (hne : k2 ≠ k) : (updD m k v).lookup k2 = m.lookup k2 := by
  have hb0 : (k2 == k) = false := by simp [hne]
  induction m with
  | nil => simp [updD, List.lookup, hb0]
  | cons hd tl ih =>
    obtain ⟨k3, v3⟩ := hd
    by_cases h : k3 = k
    · subst h
      have hb : (k2 == k3) = false := by simp [hne]
      simp [updD, List.lookup, hb]
    · have hb : (k3 == k) = false := by simp [h]
      by_cases h2 : k2 = k3
      · subst h2; simp [updD, List.lookup, hb]
      · have hb2 : (k2 == k3) = false := by simp [h2]
        simp [updD, List.lookup, hb, hb2, ih]

theorem lookup_updD_isSome {α : Type} (m : List (String × α)) (k k2 : String) (v : α)
    (h : (m.lookup k2).isSome = true) : ((updD m k v).lookup k2).isSome = true := by
  by_cases he : k2 = k
  · subst he; rw [lookup_updD_self]; rfl
  · rw [lookup_updD_ne m k k2 v he]; exact h

theorem agent_errors_updateIssueSlot (s : ReviewState) (n : String) (iss : List Issue) :
    (updateIssueSlot s n iss).agent_errors = s.agent_errors := by
  unfold updateIssueSlot
  split <;> rfl

theorem agent_errors_analyze_err (n e : String) (t : PyNum) (s : ReviewState) :
    (analyze n (Except.error e) t s).agent_errors = updD s.agent_errors n (some e) := by
  show (updateIssueSlot (updateMeta s n t (some e)) n []).agent_errors = _
  rw [agent_errors_updateIssueSlot]
  rfl

theorem get_all_analyze_err (n e : String) (t : PyNum) (s : ReviewState)
    (h : get_all_agent_issues s = []) :
    get_all_agent_issues (analyze n (Except.error e) t s) = [] := by
  have h6 := h
  simp only [get_all_agent_issues, slotList, List.append_eq_nil] at h6
  obtain ⟨⟨⟨⟨⟨h1, h2⟩, h3⟩, h4⟩, h5⟩, h6'⟩ := h6
  show get_all_agent_issues (updateIssueSlot (updateMeta s n t (some e)) n []) = []
  unfold updateIssueSlot
  split <;> simp [get_all_agent_issues, updateMeta, slotList, h1, h2, h3, h4, h5, h6']

/-- Folding the failing agents over a state with no gathered issues keeps the
gathered issues empty. -/
theorem get_all_foldl_err (err : String → String) (t : String → PyNum) (agents : List String) :
    ∀ s : ReviewState, get_all_agent_issues s = [] →
    get_all_agent_issues
      (agents.foldl (fun s a => analyze a (Except.error (err a)) (t a) s) s) = [] := by
  induction agents with
  | nil => intro s h; exact h
  | cons x tl ih =>
    intro s h
    exact ih _ (get_all_analyze_err x (err x) (t x) s h)

/-- Folding the failing agents preserves any existing error entry. -/
theorem errors_foldl_preserved (err : String → String) (t : String → PyNum)
    (agents : List String) :
    ∀ (s : ReviewState) (a : String), (s.agent_errors.lookup a).isSome = true →
    (((agents.foldl (fun s a => analyze a (Except.error (err a)) (t a) s) s).agent_errors).lookup a).isSome = true := by
  induction agents with
  | nil => intro s a h; exact h
  | cons x tl ih =>
    intro s a h
    refine ih _ a ?_
    rw [agent_errors_analyze_err]
    exact lookup_updD_isSome _ x a _ h

/-- After folding the failing agents, every invoked agent has an error entry. -/
theorem errors_foldl_all (err : String → String) (t : String → PyNum) (agents : List String) :
    ∀ (s : ReviewState) (a : String), a ∈ agents →
    (((agents.foldl (fun s a => analyze a (Except.error (err a)) (t a) s) s).agent_errors).lookup a).isSome = true := by
  induction agents with
  | nil => intro s a h; cases h
  | cons x tl ih =>
    intro s a h
    rcases List.mem_cons.mp h with rfl | hm
    · refine errors_foldl_preserved err t tl _ a ?_
      rw [agent_errors_analyze_err, lookup_updD_self]
      rfl
    · exact ih _ a hm

/-- Aggregation of a state with no gathered issues. -/
theorem aggregate_of_empty (s : ReviewState) (h : get_all_agent_issues s = []) :
    aggregate_review_results s =
      Except.ok ⟨[], [], pyI 0, "approve", ⟨0, 0, 0, ⟨0, 0, 0, 0, 0⟩⟩⟩ := by
  unfold aggregate_review_results
  rw [h]
  rfl

/-- Claim C8.  A review in which every invoked agent fails still produces a
well-formed final state: deduplicated_issues is empty, final_score is 0,
the verdict is approve, and agent_errors has an entry for every invoked
agent.  The agents are modelled by BaseAgent.analyze with a failing LLM
outcome, applied to the shared state in invocation order, then aggregated. -/
theorem c8_all_agents_failing (fp ft cd df ct : String) (agents : List String)
    (err : String → String) (t : String → PyNum) :
    ∃ sf, failingPipeline fp ft cd df ct agents err t = Except.ok sf ∧
      sf.deduplicated_issues = [] ∧ sf.final_score = pyI 0 ∧ sf.verdict = "approve" ∧
      ∀ a ∈ agents, (sf.agent_errors.lookup a).isSome = true := by
  simp only [failingPipeline]
  have hinit : get_all_agent_issues
      { create_initial_state fp ft cd df ct with agents_to_invoke := agents } = [] := rfl
  have hall := get_all_foldl_err err t agents _ hinit
  rw [aggregate_of_empty _ hall]
  refine ⟨_, rfl, rfl, rfl, rfl, ?_⟩
  intro a ha
  exact errors_foldl_all err t agents _ a ha

/-- Every list the router can return is one of the nine table rows. -/
theorem router_outputs_mem (path ftype : String) :
    determine_agents_to_invoke path ftype ∈ routerOutputs := by
  unfold determine_agents_to_invoke
  repeat' split
  all_goals decide

/-- On each router output, the fixed field order of get_all_agent_issues
produces exactly the concatenation in router order. -/
theorem slots_concat (l : List String) (f : String → List Issue) (hl : l ∈ routerOutputs) :
    get_all_agent_issues (stateWithSlots l f) = routedConcat f l := by
  have hl2 : l = ["documentation", "style"] ∨ l = ["security", "documentation", "style"] ∨
      l = ["quality", "testing", "documentation", "style"] ∨
      l = ["security", "quality", "performance", "testing", "documentation", "style"] ∨
      l = ["security", "quality", "performance", "documentation", "style"] ∨
      l = ["quality", "documentation", "style"] ∨
      l = ["security", "quality", "documentation", "style"] := by
    simpa [routerOutputs] using hl
  rcases hl2 with rfl | rfl | rfl | rfl | rfl | rfl | rfl <;>
    simp [stateWithSlots, get_all_agent_issues, slotList, create_initial_state, routedConcat]

/-- Claim C9.  For every routed file the list that deduplication consumes is
the concatenation of the per-agent issue lists in the agents_to_invoke
order of the router: every list the router can return is a subsequence of
the fixed field order of get_all_agent_issues, so the fixed-order gathering
coincides with router-order concatenation. -/
theorem c9_all_issues_in_router_order (path ftype : String) (f : String → List Issue) :
    get_all_agent_issues (stateWithSlots (determine_agents_to_invoke path ftype) f) =
      routedConcat f (determine_agents_to_invoke path ftype) :=
  slots_concat _ f (router_outputs_mem path ftype)

/-- Claim C10.  The router is a pure function of path and type that follows
the routing table with the predicates checked documentation first, then
config, then test, first match winning; a test file that is neither a
documentation nor a config file gets quality, testing, documentation, style,
and a path of unknown type matching no predicate gets security, quality,
documentation, style. -/
theorem c10_router_follows_table (path ftype : String) :
    (is_documentation_file path = true →
      determine_agents_to_invoke path ftype = ["documentation", "style"]) ∧
    (is_documentation_file path = false → is_config_file path = true →
      determine_agents_to_invoke path ftype = ["security", "documentation", "style"]) ∧
    (is_documentation_file path = false → is_config_file path = false →
      is_test_file path = true →
      determine_agents_to_invoke path ftype = ["quality", "testing", "documentation", "style"]) ∧
    (is_documentation_file path = false → is_config_file path = false →
      is_test_file path = false → ftype = "unknown" →
      determine_agents_to_invoke path ftype = ["security", "quality", "documentation", "style"]) := by
  refine ⟨?_, ?_, ?_, ?_⟩
  · intro h1; simp [determine_agents_to_invoke, h1]
  · intro h1 h2; simp [determine_agents_to_invoke, h1, h2]
  · intro h1 h2 h3; simp [determine_agents_to_invoke, h1, h2, h3]
  · intro h1 h2 h3 h4; subst h4; simp [determine_agents_to_invoke, h1, h2, h3]

theorem c10_witness :
    (is_documentation_file "src/test_foo.py" = false ∧
      is_config_file "src/test_foo.py" = false ∧
      is_test_file "src/test_foo.py" = true ∧
      determine_agents_to_invoke "src/test_foo.py" "python" =
        ["quality", "testing", "documentation", "style"]) ∧
    (is_documentation_file "data.xyz" = false ∧
      is_config_file "data.xyz" = false ∧
      is_test_file "data.xyz" = false ∧
      determine_agents_to_invoke "data.xyz" "unknown" =
        ["security", "quality", "documentation", "style"]) :=
  ⟨⟨by decide, by decide, by decide,
      (c10_router_follows_table "src/test_foo.py" "python").2.2.1 (by decide) (by decide) (by decide)⟩,
    ⟨by decide, by decide, by decide,
      (c10_router_follows_table "data.xyz" "unknown").2.2.2 (by decide) (by decide) (by decide) rfl⟩⟩

/-- Claim C6, counterexample.  A cluster of size 1 is returned unchanged by
merge_duplicate_issues, so the fused issue of the singleton cluster of c6i
carries no duplicate_count key at all (in particular not 1) and no agents
key. -/
theorem c6_counterexample_singleton_unchanged :
    clusterIssues [c6i] = [[c6i]] ∧
    deduplicate_issues [c6i] = Except.ok [c6i] ∧
    merge_duplicate_issues [c6i] = Except.ok c6i ∧
    c6i.duplicate_count ≠ some 1 ∧
    c6i.agents = none := by
  refine ⟨by decide, rfl, rfl, by decide, rfl⟩

theorem c8_witness :
    ∃ sf, failingPipeline "app.py" "python" "c" "" "modified" ["security", "style"]
        (fun _ => "boom") (fun _ => pyI 0) = Except.ok sf ∧
      sf.deduplicated_issues = [] ∧ sf.final_score = pyI 0 ∧ sf.verdict = "approve" ∧
      ∀ a ∈ ["security", "style"], (sf.agent_errors.lookup a).isSome = true :=
  c8_all_agents_failing "app.py" "python" "c" "" "modified" ["security", "style"]
    (fun _ => "boom") (fun _ => pyI 0)

theorem c9_witness :
    get_all_agent_issues
        (stateWithSlots (determine_agents_to_invoke "app.py" "python")
          (fun a => [{ description := a }])) =
      routedConcat (fun a => [{ description := a }])
        (determine_agents_to_invoke "app.py" "python") :=
  c9_all_issues_in_router_order "app.py" "python" (fun a => [{ description := a }])
